import Mathlib

/-!
Verification development for the AntiSpamBOT case lifecycle and vote
resolution engine (src/jurybot).  The Python source is shallowly embedded:
pure fragments become Lean functions, and the effectful methods of
`CaseService` (src/jurybot/services/case.py) become functions returning an
updated case record together with a trace of the transport and store
effects they perform, with a `Faults` environment deciding which transport
calls raise `TelegramBadRequest`.  Timestamps are modelled as natural
numbers (seconds), the float settings fields as rationals.
-/

/-- Status enum from src/jurybot/models.py (`CaseStatus`). -/
inductive CaseStatus where
  | OPEN
  | CONFIRMED
  | REJECTED
  | EXPIRED
  deriving DecidableEq

/-- Decision enum from src/jurybot/models.py (`VoteDecision`). -/
inductive VoteDecision where
  | SPAM
  | NOT_SPAM
  deriving DecidableEq

/-- The `quorum_strategy` literal of `ChatSettings` (src/jurybot/config.py). -/
inductive QuorumStrategy where
  | ratio_only
  | ratio_and_count
  | count_only
  deriving DecidableEq

/-- The `action_on_confirm` literal of `ChatSettings` (src/jurybot/config.py). -/
inductive ActionOnConfirm where
  | ban
  | kick
  | delete_only
  | mute
  deriving DecidableEq

/-- Settings model from src/jurybot/config.py (`ChatSettings`), with the
float fields modelled as rationals. -/
structure ChatSettings where
  min_participation_ratio : ℚ
  min_participation_count : ℕ
  approval_ratio : ℚ
  quorum_strategy : QuorumStrategy
  action_on_confirm : ActionOnConfirm
  mute_duration_sec : ℕ
  blacklist_enabled : Bool
  vote_timeout_sec : ℕ
  allow_vote_retract : Bool
  max_cases_per_user_hour : ℕ
  auto_close_on_deleted_msg : Bool
  min_account_age_hours : ℕ
  deriving DecidableEq

/-- Default field values of `ChatSettings` (the pydantic `Field` defaults:
0.05, 5, 0.6, ratio_and_count, ban, 3600, True, 14400, True, 3, True, 0). -/
def default_chat_settings : ChatSettings where
  min_participation_ratio := 1 / 20
  min_participation_count := 5
  approval_ratio := 3 / 5
  quorum_strategy := QuorumStrategy.ratio_and_count
  action_on_confirm := ActionOnConfirm.ban
  mute_duration_sec := 3600
  blacklist_enabled := true
  vote_timeout_sec := 14400
  allow_vote_retract := true
  max_cases_per_user_hour := 3
  auto_close_on_deleted_msg := true
  min_account_age_hours := 0

/-- The declared numeric bounds of `ChatSettings` (the `ge`/`le` arguments
of the pydantic `Field` declarations in src/jurybot/config.py lines 17-44). -/
def ChatSettings.field_bounds_ok (s : ChatSettings) : Prop :=
  0 ≤ s.min_participation_ratio ∧ s.min_participation_ratio ≤ 1 ∧
  1 ≤ s.min_participation_count ∧
  0 ≤ s.approval_ratio ∧ s.approval_ratio ≤ 1 ∧
  60 ≤ s.mute_duration_sec ∧
  30 ≤ s.vote_timeout_sec ∧
  1 ≤ s.max_cases_per_user_hour

instance (s : ChatSettings) : Decidable s.field_bounds_ok := by
  unfold ChatSettings.field_bounds_ok
  infer_instance

/-- An override map for `ChatSettings.merge`: at most one value per
recognized field, mirroring the `dict[str, Any]` of per-chat overrides. -/
structure SettingsOverrides where
  min_participation_ratio : Option ℚ := none
  min_participation_count : Option ℕ := none
  approval_ratio : Option ℚ := none
  quorum_strategy : Option QuorumStrategy := none
  action_on_confirm : Option ActionOnConfirm := none
  mute_duration_sec : Option ℕ := none
  blacklist_enabled : Option Bool := none
  vote_timeout_sec : Option ℕ := none
  allow_vote_retract : Option Bool := none
  max_cases_per_user_hour : Option ℕ := none
  auto_close_on_deleted_msg : Option Bool := none
  min_account_age_hours : Option ℕ := none

/-- The merge operation `ChatSettings.merge` (src/jurybot/config.py line 48):
`self.model_copy(update=overrides or \x7b\x7d)`.  Pydantic `model_copy`
replaces the given fields verbatim and performs no validation, so each
present override value is copied into the result unchecked. -/
def ChatSettings.merge (s : ChatSettings) (o : SettingsOverrides) : ChatSettings where
  min_participation_ratio := o.min_participation_ratio.getD s.min_participation_ratio
  min_participation_count := o.min_participation_count.getD s.min_participation_count
  approval_ratio := o.approval_ratio.getD s.approval_ratio
  quorum_strategy := o.quorum_strategy.getD s.quorum_strategy
  action_on_confirm := o.action_on_confirm.getD s.action_on_confirm
  mute_duration_sec := o.mute_duration_sec.getD s.mute_duration_sec
  blacklist_enabled := o.blacklist_enabled.getD s.blacklist_enabled
  vote_timeout_sec := o.vote_timeout_sec.getD s.vote_timeout_sec
  allow_vote_retract := o.allow_vote_retract.getD s.allow_vote_retract
  max_cases_per_user_hour := o.max_cases_per_user_hour.getD s.max_cases_per_user_hour
  auto_close_on_deleted_msg := o.auto_close_on_deleted_msg.getD s.auto_close_on_deleted_msg
  min_account_age_hours := o.min_account_age_hours.getD s.min_account_age_hours

/-- Case record from src/jurybot/models.py (`CaseRecord`).  The JSON
`config_snapshot` dict round-trips through `ChatSettings(**snapshot)`, so it
is embedded directly as a `ChatSettings` value. -/
structure CaseRecord where
  id : ℕ
  chat_id : ℤ
  message_id : ℤ
  offender_id : ℤ
  reporter_id : ℤ
  status : CaseStatus
  opened_at : ℕ
  closes_at : ℕ
  poll_chat_id : Option ℤ
  poll_message_id : Option ℤ
  config_snapshot : ChatSettings
  participant_target : ℕ
  deriving DecidableEq

/-- Observable effects on the transport (aiogram `Bot`) and the store
(`Storage`), in the order the service performs them. -/
inductive Effect where
  | deleteMessage (chat_id message_id : ℤ)
  | banMember (chat_id user_id : ℤ)
  | unbanMember (chat_id user_id : ℤ)
  | restrictMember (chat_id user_id : ℤ) (until_date : ℕ)
  | blacklistAdd (chat_id user_id : ℤ) (reason : String)
  | setStatus (case_id : ℕ) (status : CaseStatus)
  | editMessage (chat_id message_id : ℤ) (text : String)
  deriving DecidableEq

/-- Fault environment: which transport calls raise `TelegramBadRequest`.
A failing call produces no effect; the service catches the exception. -/
structure Faults where
  deleteFails : Bool
  banFails : Bool
  unbanFails : Bool
  restrictFails : Bool
  editFails : Bool

/-- A transport effect of enforcement, as opposed to the store status
commit and the cosmetic ballot edits. -/
def Effect.isEnforcement : Effect → Bool
  | Effect.deleteMessage _ _ => true
  | Effect.banMember _ _ => true
  | Effect.unbanMember _ _ => true
  | Effect.restrictMember _ _ _ => true
  | Effect.blacklistAdd _ _ _ => true
  | Effect.setStatus _ _ => false
  | Effect.editMessage _ _ _ => false

/-- The blacklist reason written by `_enforce_actions`: the f-string
`Case #` followed by the case id. -/
def case_reason (c : CaseRecord) : String :=
  "Case #" ++ toString c.id

/-- Method `_ban_user` (case.py lines 321-325): `ban_chat_member` inside a
try block whose `TelegramBadRequest` handler only logs. -/
def ban_user (f : Faults) (chat_id user_id : ℤ) : List Effect :=
  if f.banFails then [] else [Effect.banMember chat_id user_id]

/-- Method `_kick_user` (case.py lines 327-333): ban then unban inside one
try block; a failing ban skips the unban, and either failure is only
logged. -/
def kick_user (f : Faults) (chat_id user_id : ℤ) : List Effect :=
  if f.banFails then []
  else if f.unbanFails then [Effect.banMember chat_id user_id]
  else [Effect.banMember chat_id user_id, Effect.unbanMember chat_id user_id]

/-- Method `_mute_user` (case.py lines 335-349): restrict until
now + mute_duration_sec, failure only logged. -/
def mute_user (f : Faults) (now : ℕ) (chat_id user_id : ℤ) (s : ChatSettings) :
    List Effect :=
  if f.restrictFails then []
  else [Effect.restrictMember chat_id user_id (now + s.mute_duration_sec)]

/-- Method `_enforce_actions` (case.py lines 300-319): delete the reported
message (failure logged and swallowed); if the action is `delete_only`,
return; otherwise apply the member action, then add the blacklist entry
when `blacklist_enabled`. -/
def enforce_actions (f : Faults) (now : ℕ) (c : CaseRecord) (s : ChatSettings) :
    List Effect :=
  let deleteStep :=
    if f.deleteFails then [] else [Effect.deleteMessage c.chat_id c.message_id]
  if s.action_on_confirm = ActionOnConfirm.delete_only then deleteStep
  else
    let memberStep :=
      match s.action_on_confirm with
      | ActionOnConfirm.ban => ban_user f c.chat_id c.offender_id
      | ActionOnConfirm.kick => kick_user f c.chat_id c.offender_id
      | ActionOnConfirm.mute => mute_user f now c.chat_id c.offender_id s
      | ActionOnConfirm.delete_only => []
    let blacklistStep :=
      if s.blacklist_enabled then
        [Effect.blacklistAdd c.chat_id c.offender_id (case_reason c)]
      else []
    deleteStep ++ memberStep ++ blacklistStep

/-- Ballot edit attempt shared by `_close_case` and `_confirm_case`: only
performed when both poll ids are set and truthy, and a
`TelegramBadRequest` is swallowed. -/
def poll_edit (f : Faults) (c : CaseRecord) (text : String) : List Effect :=
  match c.poll_chat_id, c.poll_message_id with
  | some pc, some pm =>
      if pc = 0 ∨ pm = 0 then []
      else if f.editFails then []
      else [Effect.editMessage pc pm text]
  | _, _ => []

/-- Method `_close_case` (case.py lines 268-283): set status EXPIRED when
`expired` else REJECTED, then edit the ballot with the matching wording.
The `settings` parameter of the source method is unused there. -/
def close_case (f : Faults) (c : CaseRecord) (_settings : ChatSettings)
    (expired : Bool) : CaseRecord × List Effect :=
  let new_status := if expired then CaseStatus.EXPIRED else CaseStatus.REJECTED
  let status_text :=
    if expired then "投票超时，判定未成立。" else "票数不足，判定未成立。"
  ({ c with status := new_status },
    Effect.setStatus c.id new_status ::
      poll_edit f c (status_text ++ "\n\n案件 #" ++ toString c.id))

/-- Method `_confirm_case` (case.py lines 285-298): commit status CONFIRMED
to the store, update the in-memory record, run `_enforce_actions`, then
edit the ballot with the confirmation wording. -/
def confirm_case (f : Faults) (now : ℕ) (c : CaseRecord) (s : ChatSettings) :
    CaseRecord × List Effect :=
  ({ c with status := CaseStatus.CONFIRMED },
    Effect.setStatus c.id CaseStatus.CONFIRMED ::
      (enforce_actions f now c s ++
        poll_edit f c
          ("✅ 多数判定该消息为 Spam。案件 #" ++ toString c.id ++
            " 已执行。\n感谢参与投票！")))

/-- Method `_participation_met` (case.py lines 357-368). -/
def participation_met (total : ℕ) (s : ChatSettings) (participant_target : ℕ) :
    Bool :=
  let count_ok : Bool := decide (s.min_participation_count ≤ total)
  let ratio_ok : Bool := decide (participant_target ≤ total)
  match s.quorum_strategy with
  | QuorumStrategy.ratio_only => ratio_ok
  | QuorumStrategy.count_only => count_ok
  | _ => ratio_ok && count_ok

/-- Method `_maybe_resolve` (case.py lines 241-266): no-op unless OPEN;
past the deadline close as expired; otherwise with a nonzero tally confirm
when participation and the approval ratio are both met. -/
def maybe_resolve (f : Faults) (now : ℕ) (c : CaseRecord) (s : ChatSettings)
    (spam_votes _not_spam_votes total : ℕ) : CaseRecord × List Effect :=
  if c.status ≠ CaseStatus.OPEN then (c, [])
  else if c.closes_at ≤ now then close_case f c s true
  else if total = 0 then (c, [])
  else
    let participation_ok := participation_met total s c.participant_target
    let ratio_ok : Bool :=
      decide (s.approval_ratio ≤ (spam_votes : ℚ) / (total : ℚ))
    if participation_ok && ratio_ok then confirm_case f now c s
    else (c, [])

/-- The body of `_schedule_expiry_check` after its sleep (case.py lines
149-156): re-read the case; return unless still OPEN; close as expired. -/
def schedule_expiry_fire (f : Faults) (c : CaseRecord) : CaseRecord × List Effect :=
  if c.status ≠ CaseStatus.OPEN then (c, [])
  else close_case f c c.config_snapshot true

/-- One iteration of `expire_overdue_cases` (case.py lines 158-164): the
sweep lists OPEN cases and closes, as expired, each whose deadline has
passed. -/
def expire_overdue_case (f : Faults) (now : ℕ) (c : CaseRecord) :
    CaseRecord × List Effect :=
  if c.status = CaseStatus.OPEN ∧ c.closes_at ≤ now then
    close_case f c c.config_snapshot true
  else (c, [])

/-- The `participant_target` computation of `handle_report` (case.py lines
107-110): `max(min_participation_count, ceil(ratio * member_count))`. -/
def participant_target_for (s : ChatSettings) (chat_member_count : ℕ) : ℕ :=
  max s.min_participation_count
    (Int.toNat (Int.ceil (s.min_participation_ratio * (chat_member_count : ℚ))))

/-- Store operation `record_vote` (storage.py lines 239-253): upsert on the
primary key (case_id, voter_id) with `DO UPDATE SET decision = excluded`.
The vote set of one case is an association list keyed by voter id. -/
def record_vote (votes : List (ℤ × VoteDecision)) (voter_id : ℤ)
    (decision : VoteDecision) : List (ℤ × VoteDecision) :=
  if votes.any (fun p => decide (p.1 = voter_id)) then
    votes.map (fun p => if p.1 = voter_id then (voter_id, decision) else p)
  else votes ++ [(voter_id, decision)]

/-- Store operation `retract_vote` (storage.py lines 255-260): delete the
row of (case_id, voter_id). -/
def retract_vote (votes : List (ℤ × VoteDecision)) (voter_id : ℤ) :
    List (ℤ × VoteDecision) :=
  votes.filter (fun p => decide (¬ p.1 = voter_id))

/-- Python `data.split(sep)` for a one-character separator, recursively
over the character list. -/
def splitChars (sep : Char) : List Char → List (List Char)
  | [] => [[]]
  | c :: rest =>
    let r := splitChars sep rest
    if c = sep then [] :: r
    else
      match r with
      | [] => [[c]]
      | h :: t => (c :: h) :: t

/-- The callback data split `data.split(":")` of `handle_vote_callback`. -/
def split_colon (s : String) : List String :=
  (splitChars ':' s.toList).map (fun cs => String.mk cs)

/-- Decimal digit run for `int(...)`; `none` on any non-digit. -/
def parse_nat_digits (acc : ℕ) : List Char → Option ℕ
  | [] => some acc
  | c :: cs =>
      if c.isDigit then parse_nat_digits (acc * 10 + (c.toNat - 48)) cs
      else none

/-- Python `int(s)` on the callback case id: optional sign then decimal
digits, `ValueError` (here `none`) otherwise. -/
def int_of_string (s : String) : Option ℤ :=
  match s.toList with
  | [] => none
  | '-' :: cs =>
      match cs with
      | [] => none
      | _ => (parse_nat_digits 0 cs).map (fun n => -(n : ℤ))
  | '+' :: cs =>
      match cs with
      | [] => none
      | _ => (parse_nat_digits 0 cs).map (fun n => (n : ℤ))
  | cs => (parse_nat_digits 0 cs).map (fun n => (n : ℤ))

/-- Method `handle_vote_callback` up to and including the vote mutation and
the answer sent to the voter (case.py lines 166-213).  `stored_case` is
what `storage.get_case` returns for the parsed case id.  The result is the
new vote set of the case, the answer text and its `show_alert` flag;
`none` models the uncaught `ValueError` of unpacking more than four
segments.  The `_refresh_poll` call that follows a successful mutation is
modelled separately by `maybe_resolve`. -/
def handle_vote_callback (stored_case : Option CaseRecord)
    (votes : List (ℤ × VoteDecision)) (data : String) (voter_id : ℤ) :
    Option (List (ℤ × VoteDecision) × String × Bool) :=
  let parts := split_colon data
  if parts.length < 4 then some (votes, "无效的投票数据。", true)
  else
    match parts with
    | [_, action, case_id_str, decision_str] =>
      if action ≠ "vote" then some (votes, "未知操作。", true)
      else
        match int_of_string case_id_str with
        | none => some (votes, "无效案例。", true)
        | some _ =>
          match stored_case with
          | none => some (votes, "案例不存在或已关闭。", true)
          | some c =>
            if c.status ≠ CaseStatus.OPEN then
              some (votes, "此案例已结束。", false)
            else
              if decision_str = "retract" then
                if ¬ c.config_snapshot.allow_vote_retract then
                  some (votes, "当前群聊未开启撤回投票。", true)
                else some (retract_vote votes voter_id, "投票已记录。", false)
              else
                let d :=
                  if decision_str = "spam" then VoteDecision.SPAM
                  else VoteDecision.NOT_SPAM
                some (record_vote votes voter_id d, "投票已记录。", false)
    | _ => none

/-- Fault environment in which every transport call succeeds. -/
def no_faults : Faults where
  deleteFails := false
  banFails := false
  unbanFails := false
  restrictFails := false
  editFails := false

/-- Fault environment in which every transport call raises
`TelegramBadRequest`. -/
def all_faults : Faults where
  deleteFails := true
  banFails := true
  unbanFails := true
  restrictFails := true
  editFails := true

/-- A concrete OPEN case used by witnesses, mirroring the fixture of
src/tests/test_case_service.py. -/
def sample_case : CaseRecord where
  id := 1
  chat_id := -123
  message_id := 42
  offender_id := 1001
  reporter_id := 2002
  status := CaseStatus.OPEN
  opened_at := 0
  closes_at := 300
  poll_chat_id := some (-123)
  poll_message_id := some 77
  config_snapshot := default_chat_settings
  participant_target := 5

/-- The sample case after confirmation. -/
def terminal_case : CaseRecord :=
  { sample_case with status := CaseStatus.CONFIRMED }

/-- Default settings with the enforcement action set to delete_only. -/
def settings_delete_only : ChatSettings :=
  { default_chat_settings with action_on_confirm := ActionOnConfirm.delete_only }

/-- The sample case carrying the delete_only settings snapshot. -/
def delete_only_case : CaseRecord :=
  { sample_case with config_snapshot := settings_delete_only }

/-- The sample case whose settings snapshot disallows vote retraction. -/
def no_retract_case : CaseRecord :=
  { sample_case with
      config_snapshot :=
        { default_chat_settings with allow_vote_retract := false } }

theorem map_replace_eq_self (votes : List (ℤ × VoteDecision)) (v : ℤ)
    (d : VoteDecision) (h : ∀ p ∈ votes, p.1 ≠ v) :
    votes.map (fun p => if p.1 = v then (v, d) else p) = votes := by
  induction votes with
  | nil => rfl
  | cons a rest ih =>
    rw [List.map_cons, if_neg (h a (List.mem_cons_self a rest)),
      ih (fun p hp => h p (List.mem_cons_of_mem a hp))]

theorem filter_key_eq_nil (votes : List (ℤ × VoteDecision)) (v : ℤ)
    (h : ∀ p ∈ votes, p.1 ≠ v) :
    votes.filter (fun p => decide (p.1 = v)) = [] := by
  apply List.filter_eq_nil_iff.mpr
  intro p hp
  simp [h p hp]

theorem map_replace_filter (votes : List (ℤ × VoteDecision)) (v : ℤ)
    (d : VoteDecision) (hnodup : (votes.map Prod.fst).Nodup)
    (hany : votes.any (fun p => decide (p.1 = v)) = true) :
    (votes.map (fun p => if p.1 = v then (v, d) else p)).filter
      (fun p => decide (p.1 = v)) = [(v, d)] := by
  induction votes with
  | nil => simp at hany
  | cons a rest ih =>
    rw [List.map_cons, List.nodup_cons] at hnodup
    obtain ⟨hnotin, hrest⟩ := hnodup
    by_cases hav : a.1 = v
    · have hner : ∀ p ∈ rest, p.1 ≠ v := by
        intro p hp hpv
        exact hnotin (hav ▸ hpv ▸ List.mem_map_of_mem Prod.fst hp)
      rw [List.map_cons, if_pos hav, map_replace_eq_self rest v d hner,
        List.filter_cons_of_pos (by simp), filter_key_eq_nil rest v hner]
    · have hany_rest : rest.any (fun p => decide (p.1 = v)) = true := by
        rcases List.any_eq_true.mp hany with ⟨p, hp, hpkey⟩
        rcases List.mem_cons.mp hp with rfl | hp2
        · simp [hav] at hpkey
        · exact List.any_eq_true.mpr ⟨p, hp2, hpkey⟩
      rw [List.map_cons, if_neg hav, List.filter_cons_of_neg (by simp [hav])]
      exact ih hrest hany_rest

theorem record_vote_filter (votes : List (ℤ × VoteDecision)) (v : ℤ)
    (d : VoteDecision) (hnodup : (votes.map Prod.fst).Nodup) :
    (record_vote votes v d).filter (fun p => decide (p.1 = v)) = [(v, d)] := by
  unfold record_vote
  by_cases h : votes.any (fun p => decide (p.1 = v)) = true
  · rw [if_pos h]
    exact map_replace_filter votes v d hnodup h
  · rw [if_neg h, List.filter_append, filter_key_eq_nil votes v
      (fun p hp hpv => h (List.any_eq_true.mpr ⟨p, hp, by simp [hpv]⟩))]
    simp

theorem record_vote_nodup (votes : List (ℤ × VoteDecision)) (v : ℤ)
    (d : VoteDecision) (hnodup : (votes.map Prod.fst).Nodup) :
    ((record_vote votes v d).map Prod.fst).Nodup := by
  unfold record_vote
  by_cases h : votes.any (fun p => decide (p.1 = v)) = true
  · rw [if_pos h]
    have hkeys : (votes.map (fun p => if p.1 = v then (v, d) else p)).map Prod.fst
        = votes.map Prod.fst := by
      rw [List.map_map]
      apply List.map_congr_left
      intro p _
      by_cases hpv : p.1 = v
      · simp [hpv]
      · simp [hpv]
    rw [hkeys]
    exact hnodup
  · rw [if_neg h, List.map_append]
    refine List.Nodup.append hnodup (by simp) ?_
    intro x hx hx2
    simp only [List.map_cons, List.map_nil, List.mem_singleton] at hx2
    subst hx2
    rcases List.mem_map.mp hx with ⟨p, hp, hpv⟩
    exact h (List.any_eq_true.mpr ⟨p, hp, by simp [hpv]⟩)

theorem retract_vote_filter (votes : List (ℤ × VoteDecision)) (v : ℤ) :
    (retract_vote votes v).filter (fun p => decide (p.1 = v)) = [] := by
  apply List.filter_eq_nil_iff.mpr
  intro p hp
  have h2 := (List.mem_filter.mp hp).2
  simp only [decide_eq_true_eq] at h2 ⊢
  exact h2

/-- C5: the participation-met predicate equals the strategy table exactly:
under ratio_and_count it is total at least participant_target and total at
least min_participation_count, under ratio_only only the former, and under
count_only only the latter. -/
theorem c5_participation_met_matches_table (total : ℕ) (s : ChatSettings)
    (participant_target : ℕ) :
    (s.quorum_strategy = QuorumStrategy.ratio_and_count →
      (participation_met total s participant_target = true ↔
        participant_target ≤ total ∧ s.min_participation_count ≤ total))
  ∧ (s.quorum_strategy = QuorumStrategy.ratio_only →
      (participation_met total s participant_target = true ↔
        participant_target ≤ total))
  ∧ (s.quorum_strategy = QuorumStrategy.count_only →
      (participation_met total s participant_target = true ↔
        s.min_participation_count ≤ total)) := by
  refine ⟨?_, ?_, ?_⟩ <;> intro hs <;>
    simp [participation_met, hs, Bool.and_eq_true, decide_eq_true_eq, and_comm]

/-- C5 witness: the tabulated sample points from the spec evaluate as the
table says under each of the three strategies. -/
theorem c5_witness :
    participation_met 5
        { default_chat_settings with
            quorum_strategy := QuorumStrategy.ratio_and_count } 5 = true
  ∧ participation_met 6
        { default_chat_settings with
            quorum_strategy := QuorumStrategy.ratio_only } 5 = true
  ∧ participation_met 6
        { default_chat_settings with
            quorum_strategy := QuorumStrategy.count_only } 5 = true :=
  ⟨((c5_participation_met_matches_table 5 _ 5).1 rfl).mpr (by decide),
   ((c5_participation_met_matches_table 6 _ 5).2.1 rfl).mpr (by decide),
   ((c5_participation_met_matches_table 6 _ 5).2.2 rfl).mpr (by decide)⟩

/-- C10: the participant target computed at case creation is at least
min_participation_count, so under that target the ratio_and_count
participation predicate coincides with the ratio_only one. -/
theorem c10_ratio_and_count_equals_ratio_only (s : ChatSettings)
    (member_count total : ℕ) :
    s.min_participation_count ≤ participant_target_for s member_count
  ∧ participation_met total
        { s with quorum_strategy := QuorumStrategy.ratio_and_count }
        (participant_target_for s member_count)
      = participation_met total
        { s with quorum_strategy := QuorumStrategy.ratio_only }
        (participant_target_for s member_count) := by
  constructor
  · exact le_max_left _ _
  · by_cases h : participant_target_for s member_count ≤ total
    · have hc : s.min_participation_count ≤ total := le_trans (le_max_left _ _) h
      simp [participation_met, h, hc]
    · simp [participation_met, h]

/-- C2 (code bug evidence): the defaults satisfy every declared field
bound, yet merging the single override approval_ratio = 2 produces a
snapshot violating the bounds, because merge copies override values
verbatim without re-validation. -/
theorem c2_merge_skips_bounds_validation :
    default_chat_settings.field_bounds_ok
  ∧ ¬ (default_chat_settings.merge
        { approval_ratio := some 2 }).field_bounds_ok := by
  constructor
  · unfold ChatSettings.field_bounds_ok default_chat_settings
    norm_num
  · intro h
    unfold ChatSettings.field_bounds_ok at h
    have h5 := h.2.2.2.2.1
    norm_num [ChatSettings.merge, default_chat_settings] at h5

/-- C4: deadline dominance - evaluating an OPEN case at or past its
deadline resolves to the timeout-terminal EXPIRED status and never to
CONFIRMED, whatever the tally. -/
theorem c4_deadline_dominance (f : Faults) (now : ℕ) (c : CaseRecord)
    (s : ChatSettings) (a b t : ℕ)
    (hopen : c.status = CaseStatus.OPEN) (hpast : c.closes_at ≤ now) :
    (maybe_resolve f now c s a b t).1.status = CaseStatus.EXPIRED
  ∧ (maybe_resolve f now c s a b t).1.status ≠ CaseStatus.CONFIRMED := by
  unfold maybe_resolve
  rw [if_neg (by simp [hopen]), if_pos hpast]
  exact ⟨rfl, by simp [close_case]⟩

/-- C4 witness: at one second past the deadline, a tally 5 Spam of 5 that
satisfies both the participation target and the approval ratio still
resolves to EXPIRED, not CONFIRMED. -/
theorem c4_witness :
    (maybe_resolve no_faults 301 sample_case default_chat_settings 5 0 5).1.status
        = CaseStatus.EXPIRED
  ∧ (maybe_resolve no_faults 301 sample_case default_chat_settings 5 0 5).1.status
        ≠ CaseStatus.CONFIRMED :=
  c4_deadline_dominance no_faults 301 sample_case default_chat_settings 5 0 5
    rfl (by decide)

/-- C6: terminal states are absorbing - on a non-OPEN case the
vote-triggered evaluation, the timer fire and the startup sweep all leave
the case unchanged and produce no effects; and whenever an evaluation
changes the status, the case was OPEN and the new status is one of the
three terminal states. -/
theorem c6_terminal_states_absorbing (f : Faults) (now : ℕ) (c : CaseRecord)
    (s : ChatSettings) (a b t : ℕ) :
    (c.status ≠ CaseStatus.OPEN →
      maybe_resolve f now c s a b t = (c, [])
      ∧ schedule_expiry_fire f c = (c, [])
      ∧ expire_overdue_case f now c = (c, []))
  ∧ ((maybe_resolve f now c s a b t).1.status ≠ c.status →
      c.status = CaseStatus.OPEN
      ∧ ((maybe_resolve f now c s a b t).1.status = CaseStatus.CONFIRMED
        ∨ (maybe_resolve f now c s a b t).1.status = CaseStatus.REJECTED
        ∨ (maybe_resolve f now c s a b t).1.status = CaseStatus.EXPIRED)) := by
  constructor
  · intro hterm
    refine ⟨?_, ?_, ?_⟩
    · unfold maybe_resolve
      rw [if_pos hterm]
    · unfold schedule_expiry_fire
      rw [if_pos hterm]
    · unfold expire_overdue_case
      rw [if_neg (fun h => hterm h.1)]
  · simp only [maybe_resolve]
    split_ifs with h1 h2 h3 h4
    · intro hne
      exact absurd rfl hne
    · intro _
      exact ⟨not_not.mp h1, Or.inr (Or.inr rfl)⟩
    · intro hne
      exact absurd rfl hne
    · intro _
      exact ⟨not_not.mp h1, Or.inl rfl⟩
    · intro hne
      exact absurd rfl hne

/-- C6 witness: a CONFIRMED case is untouched by all three evaluation
paths, and an OPEN case past its deadline changes status only to a
terminal state. -/
theorem c6_witness :
    (maybe_resolve no_faults 10 terminal_case default_chat_settings 1 0 1
        = (terminal_case, [])
      ∧ schedule_expiry_fire no_faults terminal_case = (terminal_case, [])
      ∧ expire_overdue_case no_faults 10 terminal_case = (terminal_case, []))
  ∧ (sample_case.status = CaseStatus.OPEN
      ∧ ((maybe_resolve no_faults 301 sample_case default_chat_settings 5 0 5).1.status
            = CaseStatus.CONFIRMED
        ∨ (maybe_resolve no_faults 301 sample_case default_chat_settings 5 0 5).1.status
            = CaseStatus.REJECTED
        ∨ (maybe_resolve no_faults 301 sample_case default_chat_settings 5 0 5).1.status
            = CaseStatus.EXPIRED)) :=
  ⟨(c6_terminal_states_absorbing no_faults 10 terminal_case
      default_chat_settings 1 0 1).1 (by decide),
   (c6_terminal_states_absorbing no_faults 301 sample_case
      default_chat_settings 5 0 5).2 (by decide)⟩

/-- C3 counterexample: a vote-triggered evaluation of an OPEN case at a
time past its deadline sets status EXPIRED, not REJECTED as the claim
states for the vote path. -/
theorem c3_counterexample_vote_path_expires :
    (maybe_resolve no_faults 301 sample_case default_chat_settings 3 0 3).1.status
        = CaseStatus.EXPIRED
  ∧ (maybe_resolve no_faults 301 sample_case default_chat_settings 3 0 3).1.status
        ≠ CaseStatus.REJECTED := by
  exact ⟨by decide, by decide⟩

/-- C3 amended: every past-deadline resolution of an OPEN case - whether
triggered by a vote event, the scheduled timer, or the startup sweep -
produces the same result: status EXPIRED with identical effects (including
the identical timeout wording); REJECTED is produced on no path. -/
theorem c3_past_deadline_paths_agree (f : Faults) (now : ℕ) (c : CaseRecord)
    (s : ChatSettings) (a b t : ℕ)
    (hopen : c.status = CaseStatus.OPEN) (hpast : c.closes_at ≤ now) :
    maybe_resolve f now c s a b t = schedule_expiry_fire f c
  ∧ expire_overdue_case f now c = schedule_expiry_fire f c
  ∧ (maybe_resolve f now c s a b t).1.status = CaseStatus.EXPIRED := by
  have h1 : ¬ c.status ≠ CaseStatus.OPEN := by simp [hopen]
  refine ⟨?_, ?_, ?_⟩
  · unfold maybe_resolve schedule_expiry_fire
    rw [if_neg h1, if_pos hpast, if_neg h1]
    rfl
  · unfold expire_overdue_case schedule_expiry_fire
    rw [if_pos ⟨hopen, hpast⟩, if_neg h1]
  · unfold maybe_resolve
    rw [if_neg h1, if_pos hpast]
    rfl

/-- C3 witness: a concrete vote-triggered past-deadline evaluation agrees
with the timer path and with the sweep, and ends EXPIRED. -/
theorem c3_witness :
    maybe_resolve no_faults 301 sample_case default_chat_settings 2 1 3
        = schedule_expiry_fire no_faults sample_case
  ∧ expire_overdue_case no_faults 301 sample_case
        = schedule_expiry_fire no_faults sample_case
  ∧ (maybe_resolve no_faults 301 sample_case default_chat_settings 2 1 3).1.status
        = CaseStatus.EXPIRED :=
  c3_past_deadline_paths_agree no_faults 301 sample_case default_chat_settings
    2 1 3 rfl (by decide)

/-- C1 counterexample: with action delete_only and blacklist-on-confirm
enabled, confirming a case produces no blacklist entry at all -
`_enforce_actions` returns before the blacklist step. -/
theorem c1_counterexample_delete_only_skips_blacklist :
    settings_delete_only.blacklist_enabled = true
  ∧ Effect.blacklistAdd delete_only_case.chat_id delete_only_case.offender_id
        (case_reason delete_only_case)
      ∉ (confirm_case no_faults 0 delete_only_case settings_delete_only).2 := by
  exact ⟨rfl, by decide⟩

/-- C1 amended: for every confirmed case whose settings enable
blacklist-on-confirm and whose action is ban, kick or mute (not
delete_only), the blacklist entry with the case id as reason is recorded,
under every fault environment - in particular even when the message delete
or the member action raises a transport error. -/
theorem c1_blacklist_added_for_member_actions (f : Faults) (now : ℕ)
    (c : CaseRecord) (s : ChatSettings)
    (hbl : s.blacklist_enabled = true)
    (hact : s.action_on_confirm ≠ ActionOnConfirm.delete_only) :
    Effect.blacklistAdd c.chat_id c.offender_id (case_reason c)
        ∈ enforce_actions f now c s
  ∧ Effect.blacklistAdd c.chat_id c.offender_id (case_reason c)
        ∈ (confirm_case f now c s).2 := by
  have hmem : Effect.blacklistAdd c.chat_id c.offender_id (case_reason c)
      ∈ enforce_actions f now c s := by
    unfold enforce_actions
    rw [if_neg hact]
    simp [hbl]
  refine ⟨hmem, ?_⟩
  unfold confirm_case
  exact List.mem_cons_of_mem _ (List.mem_append_left _ hmem)

/-- C1 witness: with the default ban action, blacklist enabled and every
transport call failing (message delete and member ban both raise), the
blacklist entry is still recorded. -/
theorem c1_witness :
    Effect.blacklistAdd sample_case.chat_id sample_case.offender_id
        (case_reason sample_case)
      ∈ enforce_actions all_faults 0 sample_case default_chat_settings
  ∧ Effect.blacklistAdd sample_case.chat_id sample_case.offender_id
        (case_reason sample_case)
      ∈ (confirm_case all_faults 0 sample_case default_chat_settings).2 :=
  c1_blacklist_added_for_member_actions all_faults 0 sample_case
    default_chat_settings rfl (by decide)

/-- C8: confirmation commits the CONFIRMED status to the store as the very
first effect, every enforcement effect of the trace comes strictly after
it, the returned record is CONFIRMED, and a racing second evaluation of
the confirmed record is a no-op producing no effects. -/
theorem c8_confirm_commits_before_enforcement (f f2 : Faults)
    (now now2 : ℕ) (c : CaseRecord) (s s2 : ChatSettings) (a b t : ℕ) :
    (confirm_case f now c s).2.head?
        = some (Effect.setStatus c.id CaseStatus.CONFIRMED)
  ∧ (∀ e ∈ (confirm_case f now c s).2, e.isEnforcement = true →
        e ∈ (confirm_case f now c s).2.tail)
  ∧ (confirm_case f now c s).1.status = CaseStatus.CONFIRMED
  ∧ maybe_resolve f2 now2 (confirm_case f now c s).1 s2 a b t
        = ((confirm_case f now c s).1, []) := by
  refine ⟨rfl, ?_, rfl, ?_⟩
  · intro e he henf
    simp only [confirm_case] at he ⊢
    rcases List.mem_cons.mp he with h | h
    · rw [h] at henf
      exact absurd henf (by simp [Effect.isEnforcement])
    · simpa using h
  · unfold maybe_resolve
    rw [if_pos (by simp [confirm_case])]

/-- C8 witness: on the sample case the trace head is the CONFIRMED status
commit, the message-delete enforcement effect sits strictly after it, and
re-evaluating the confirmed record changes nothing. -/
theorem c8_witness :
    (confirm_case no_faults 10 sample_case default_chat_settings).2.head?
        = some (Effect.setStatus sample_case.id CaseStatus.CONFIRMED)
  ∧ Effect.deleteMessage sample_case.chat_id sample_case.message_id
        ∈ (confirm_case no_faults 10 sample_case default_chat_settings).2.tail
  ∧ (confirm_case no_faults 10 sample_case default_chat_settings).1.status
        = CaseStatus.CONFIRMED
  ∧ maybe_resolve no_faults 11
        (confirm_case no_faults 10 sample_case default_chat_settings).1
        default_chat_settings 5 0 5
      = ((confirm_case no_faults 10 sample_case default_chat_settings).1, []) := by
  obtain ⟨h1, h2, h3, h4⟩ :=
    c8_confirm_commits_before_enforcement no_faults no_faults 10 11
      sample_case default_chat_settings default_chat_settings 5 0 5
  exact ⟨h1,
    h2 (Effect.deleteMessage sample_case.chat_id sample_case.message_id)
      (by decide) (by decide), h3, h4⟩

/-- C7: vote mutation keeps at most one row per voter - casting Spam then
NotSpam leaves exactly one vote for that voter, NotSpam (last-write-wins);
a retract removes the row entirely; and a retract callback when the
snapshot disallows retraction is rejected with a user-facing reason and
leaves the vote set unchanged. -/
theorem c7_vote_mutation (votes : List (ℤ × VoteDecision)) (voter_id : ℤ)
    (c : CaseRecord) (data : String) (p0 cid : String)
    (hnodup : (votes.map Prod.fst).Nodup)
    (hsplit : split_colon data = [p0, "vote", cid, "retract"])
    (hcid : (int_of_string cid).isSome)
    (hopen : c.status = CaseStatus.OPEN)
    (hretract : c.config_snapshot.allow_vote_retract = false) :
    (record_vote (record_vote votes voter_id VoteDecision.SPAM) voter_id
        VoteDecision.NOT_SPAM).filter (fun p => decide (p.1 = voter_id))
      = [(voter_id, VoteDecision.NOT_SPAM)]
  ∧ (retract_vote (record_vote votes voter_id VoteDecision.SPAM)
        voter_id).filter (fun p => decide (p.1 = voter_id)) = []
  ∧ handle_vote_callback (some c) votes data voter_id
      = some (votes, "当前群聊未开启撤回投票。", true) := by
  refine ⟨?_, ?_, ?_⟩
  · exact record_vote_filter _ voter_id VoteDecision.NOT_SPAM
      (record_vote_nodup votes voter_id VoteDecision.SPAM hnodup)
  · exact retract_vote_filter _ voter_id
  · obtain ⟨n, hn⟩ := Option.isSome_iff_exists.mp hcid
    simp [handle_vote_callback, hsplit, hn, hopen, hretract]

/-- C7 witness: on a concrete one-vote set, cast Spam then NotSpam keeps
exactly the NotSpam row, retract empties the row, and a retract callback
against a no-retract snapshot rejects without touching the votes. -/
theorem c7_witness :
    (record_vote (record_vote [((5 : ℤ), VoteDecision.SPAM)] 9
        VoteDecision.SPAM) 9 VoteDecision.NOT_SPAM).filter
        (fun p => decide (p.1 = 9)) = [((9 : ℤ), VoteDecision.NOT_SPAM)]
  ∧ (retract_vote (record_vote [((5 : ℤ), VoteDecision.SPAM)] 9
        VoteDecision.SPAM) 9).filter (fun p => decide (p.1 = 9)) = []
  ∧ handle_vote_callback (some no_retract_case)
        [((5 : ℤ), VoteDecision.SPAM)] "jury:vote:1:retract" 9
      = some ([((5 : ℤ), VoteDecision.SPAM)], "当前群聊未开启撤回投票。", true) :=
  c7_vote_mutation [((5 : ℤ), VoteDecision.SPAM)] 9 no_retract_case
    "jury:vote:1:retract" "jury" "1" (by decide) (by decide) (by decide)
    rfl rfl

/-- C9: a well-formed vote callback whose last segment is any token other
than spam and retract is not rejected - it is recorded as a NOT_SPAM vote
for the voter. -/
theorem c9_unknown_token_records_not_spam (c : CaseRecord)
    (votes : List (ℤ × VoteDecision)) (data : String)
    (p0 cid token : String) (voter_id : ℤ)
    (hsplit : split_colon data = [p0, "vote", cid, token])
    (hcid : (int_of_string cid).isSome)
    (hopen : c.status = CaseStatus.OPEN)
    (hspam : token ≠ "spam") (hret : token ≠ "retract") :
    handle_vote_callback (some c) votes data voter_id
      = some (record_vote votes voter_id VoteDecision.NOT_SPAM,
          "投票已记录。", false) := by
  obtain ⟨n, hn⟩ := Option.isSome_iff_exists.mp hcid
  simp [handle_vote_callback, hsplit, hn, hopen, hspam, hret]

/-- C9 witness: the garbage token callback jury:vote:7:garbage on an OPEN
case records a NOT_SPAM vote for the voter. -/
theorem c9_witness :
    handle_vote_callback (some sample_case) [] "jury:vote:7:garbage" 9
      = some (record_vote [] 9 VoteDecision.NOT_SPAM, "投票已记录。", false) :=
  c9_unknown_token_records_not_spam sample_case [] "jury:vote:7:garbage"
    "jury" "7" "garbage" 9 (by decide) (by decide) rfl (by decide) (by decide)
